import Mathlib

/-!
Verification development for the classification and risk-aggregation core of
the capsAI backend (src/api.py).  The external BERTopic model, the sentence
embedding model and their numeric outputs are modelled by an oracle record
`Env`; floating point numbers are idealized as rationals.  All definitions
below are translated from src/api.py.
-/

/-- One answer item of a section: `{text, weight}` (src/api.py, analyze). -/
structure Item where
  text : String
  weight : ℚ
deriving DecidableEq, Repr

/-- Shape of `probs[0]` returned by `topic_model.transform([text])`:
either a single scalar, or an iterable of per-class probabilities (modelled
as a nonempty list, since Python `max` on an iterable needs an element).
`none` at the use site models `probs is None`. -/
inductive ProbShape where
  | scalar (q : ℚ)
  | vec (hd : ℚ) (tl : List ℚ)
deriving DecidableEq, Repr

/-- Oracle for the process-wide external model state of src/api.py:
whether each model loaded (lines 77-91), what `topic_model.transform`
returns (topic id and probability, line 145), and the maximal cosine
similarity `float(util.cos_sim(user_embedding, anchors).max())` the
embedding model yields for a text against the anchors of a category
(line 165). -/
structure Env where
  topicLoaded : Bool
  topicOf : String → Int
  probsOf : String → Option ProbShape
  embLoaded : Bool
  simOf : String → String → ℚ

/-- KEYWORD_TO_CATEGORY (src/api.py lines 96-100) in insertion order. -/
def KEYWORD_TO_CATEGORY : List (String × String) :=
  [("hit", "Physical Abuse"), ("slap", "Physical Abuse"), ("punch", "Physical Abuse"),
   ("kick", "Physical Abuse"), ("weapon", "Physical Abuse"), ("kill", "Physical Abuse"),
   ("threat", "Control & Manipulation")]

/-- TOPIC_MAPPING (src/api.py lines 102-106). -/
def TOPIC_MAPPING : List (Int × String) :=
  [(2, "Control & Manipulation"), (3, "Control & Manipulation"), (4, "Neglect & Emotional Withdrawal"),
   (6, "Control & Manipulation"), (8, "Verbal & Emotional Abuse"), (1, "Neglect & Emotional Withdrawal"),
   (5, "Verbal & Emotional Abuse")]

/-- Keys of ANCHOR_SENTENCES / ANCHOR_EMBEDDINGS (src/api.py lines 108-113)
in insertion order, as iterated by the semantic layer loop (line 164). -/
def ANCHOR_CATS : List String :=
  ["Control & Manipulation", "Verbal & Emotional Abuse", "Physical Abuse",
   "Neglect & Emotional Withdrawal"]

/-- CATEGORIES_ADVICE (src/api.py lines 120-127). -/
def CATEGORIES_ADVICE : List (String × String) :=
  [("Control & Manipulation", "Document incidents. Do not share your location if unsafe."),
   ("Verbal & Emotional Abuse", "Prioritize your mental health. Do not engage in escalating arguments."),
   ("Neglect & Emotional Withdrawal", "Seek counseling or support from trusted friends."),
   ("Physical Abuse", "Go to a safe place immediately. Call 911."),
   ("Healthy/Low Risk", "Maintain open communication."),
   ("Neutral / Unclassified", "No specific pattern detected.")]

/-- Whether `p` is a leading segment of `l` (model of Python substring
matching machinery). -/
def listIsPre : List Char → List Char → Bool
  | [], _ => true
  | _ :: _, [] => false
  | a :: as, b :: bs => a == b && listIsPre as bs

/-- Whether `needle` occurs contiguously inside `hay`: model of the Python
containment test `key in text_lower` on strings (src/api.py line 140). -/
def containsSub (needle : List Char) : List Char → Bool
  | [] => listIsPre needle []
  | c :: cs => listIsPre needle (c :: cs) || containsSub needle cs

/-- String version of `containsSub` on a prefix test, used only to state
that a method string starts with a given text. -/
def strHasPre (p s : String) : Bool := listIsPre p.toList s.toList

/-- Python `text.strip()` on the character list: drop leading and trailing
whitespace (src/api.py line 133). -/
def stripChars (l : List Char) : List Char :=
  ((l.dropWhile Char.isWhitespace).reverse.dropWhile Char.isWhitespace).reverse

/-- Layer 1 scan (src/api.py lines 139-141): iterate the keyword table in
insertion order and return the category of the first trigger contained in
the lowercased text. -/
def scanKeywords : List (String × String) → List Char → Option String
  | [], _ => none
  | (k, v) :: rest, tl => if containsSub k.toList tl then some v else scanKeywords rest tl

/-- Python `max` over a nonempty iterable of rationals. -/
def maxList (hd : ℚ) (tl : List ℚ) : ℚ := tl.foldl max hd

/-- Confidence extraction of the topic layer (src/api.py lines 148-156):
max of an iterable `probs[0]`, the scalar itself otherwise, and 0.5 when
`probs is None`. -/
def extractConf : Option ProbShape → ℚ
  | none => 0.5
  | some (ProbShape.scalar q) => q
  | some (ProbShape.vec hd tl) => maxList hd tl

/-- Layer 2 (src/api.py lines 144-158): if the topic model loaded and the
produced topic id is a key of TOPIC_MAPPING, return the mapped category,
the method string and the extracted confidence; otherwise no result. -/
def topicLayer (env : Env) (text : String) : Option (String × String × ℚ) :=
  if env.topicLoaded then
    match TOPIC_MAPPING.lookup (env.topicOf text) with
    | some cat =>
        some (cat, "AI Cluster " ++ toString (env.topicOf text), extractConf (env.probsOf text))
    | none => none
  else none

/-- The loop of layer 3 (src/api.py lines 163-166): running best category
and best score, starting from ("Neutral / Unclassified", 0.0), updated when
the score of the next category strictly exceeds the running best. -/
def semLoop (sim : String → ℚ) : List String → String × ℚ → String × ℚ
  | [], acc => acc
  | c :: cs, acc =>
      if acc.2 < sim c then semLoop sim cs (c, sim c) else semLoop sim cs acc

/-- Layer 3 (src/api.py lines 161-167): if the embedding model loaded, run
the similarity loop over the anchor categories and return the best category
with its score when the score exceeds 0.35; otherwise no result. -/
def semanticLayer (env : Env) (text : String) : Option (String × String × ℚ) :=
  if env.embLoaded then
    match semLoop (env.simOf text) ANCHOR_CATS ("Neutral / Unclassified", 0) with
    | (bc, hs) => if 0.35 < hs then some (bc, "AI Semantic Similarity", hs) else none
  else none

/-- hybrid_detect (src/api.py lines 132-169): guard on the stripped length,
then keyword layer, topic layer, semantic layer, system default.  The early
returns of the Python function become the first defined layer result. -/
def hybrid_detect (env : Env) (text : String) : String × String × ℚ :=
  if text = "" ∨ (stripChars text.toList).length < 5 then
    ("Healthy/Low Risk", "Insufficient Data", 0)
  else
    match scanKeywords KEYWORD_TO_CATEGORY (text.toList.map Char.toLower) with
    | some cat => (cat, "Manual Keyword Match", 1)
    | none =>
        match topicLayer env text with
        | some r => r
        | none =>
            match semanticLayer env text with
            | some r => r
            | none => ("Healthy/Low Risk", "System Default", 0)

/-- Python `" ".join` over a list of strings. -/
def joinTexts : List String → String
  | [] => ""
  | [x] => x
  | x :: y :: rest => x ++ " " ++ joinTexts (y :: rest)

/-- section_text (src/api.py line 189). -/
def sectionText (items : List Item) : String := joinTexts (items.map Item.text)

/-- section_score (src/api.py line 190). -/
def sectionScore (items : List Item) : ℚ := (items.map Item.weight).sum

/-- Per-section risk logic (src/api.py lines 196-199). -/
def sectionRisk (cat : String) (score : ℚ) : String × String :=
  if cat = "Physical Abuse" then ("Severe", "red")
  else if 6 ≤ score then ("High", "orange")
  else if 2 ≤ score then ("Moderate", "yellow")
  else ("Low", "green")

/-- Overall risk logic (src/api.py lines 211-214). -/
def generalRisk (cat : String) (total : ℚ) : String × String :=
  if cat = "Physical Abuse" then ("Severe", "red")
  else if 10 ≤ total then ("High", "orange")
  else if 3 ≤ total then ("Moderate", "yellow")
  else ("Low", "green")

/-- Round to the nearest integer, ties to the even integer: idealized model
of Python round on a rational value.  With f the floor of q and r the
remainder numerator, the fractional part r / den is compared with 1 / 2 by
comparing 2 * r with den. -/
def roundHalfEven (q : ℚ) : Int :=
  if 2 * Int.emod q.num q.den < (q.den : Int) then Int.ediv q.num q.den
  else if (q.den : Int) < 2 * Int.emod q.num q.den then Int.ediv q.num q.den + 1
  else if Int.emod (Int.ediv q.num q.den) 2 = 0 then Int.ediv q.num q.den
  else Int.ediv q.num q.den + 1

/-- Render an integer number of tenths as a decimal string with one digit
after the point, the way Python prints `round(x, 1)` inside an f-string. -/
def fmtTenths (n : Int) : String :=
  if n < 0 then
    "-" ++ (toString (n.natAbs / 10) ++ "." ++ String.mk [Nat.digitChar (n.natAbs % 10)])
  else
    toString (n.natAbs / 10) ++ "." ++ String.mk [Nat.digitChar (n.natAbs % 10)]

/-- The digits of `round(conf * 100, 1)` as rendered by the f-strings of
src/api.py lines 203 and 220 (without any percent sign). -/
def pctString (conf : ℚ) : String := fmtTenths (roundHalfEven (conf * 100 * 10))

/-- Whether a string ends with the percent character. -/
def endsPct (s : String) : Bool := s.toList.getLast? == some '%'

/-- Outcome of one section of the breakdown (src/api.py lines 201-204). -/
structure SectionOutcome where
  category : String
  risk : String
  color : String
  confidence : String
deriving DecidableEq, Repr

/-- The general part of the response (src/api.py lines 217-221). -/
structure GeneralOutcome where
  category : String
  risk : String
  color : String
  advice : String
  method : String
  confidence : String
deriving DecidableEq, Repr

/-- The result of analyze (src/api.py lines 216-223). -/
structure AnalyzeResult where
  general : GeneralOutcome
  breakdown : List (String × SectionOutcome)
deriving DecidableEq, Repr

/-- Body of the section loop of analyze (src/api.py lines 186-205): skip a
section with an empty item list, otherwise classify the joined section
text, apply the per-section risk logic, append the outcome to the
breakdown, append the section text to the sentence list, and add the
section score to the running total. -/
def analyzeStep (env : Env) (acc : List (String × SectionOutcome) × List String × ℚ)
    (sec : String × List Item) : List (String × SectionOutcome) × List String × ℚ :=
  match acc with
  | (bd, sents, total) =>
    if sec.2.isEmpty then (bd, sents, total)
    else
      (bd ++ [(sec.1,
        { category := (hybrid_detect env (sectionText sec.2)).1,
          risk := (sectionRisk (hybrid_detect env (sectionText sec.2)).1 (sectionScore sec.2)).1,
          color := (sectionRisk (hybrid_detect env (sectionText sec.2)).1 (sectionScore sec.2)).2,
          confidence := pctString (hybrid_detect env (sectionText sec.2)).2.2 ++ "%" })],
       sents ++ [sectionText sec.2],
       total + sectionScore sec.2)

/-- analyze (src/api.py lines 176-223), restricted to its computational
core: the grouped answers are a list of (section name, items) pairs in
dict insertion order; database persistence and the HTTP envelope are out
of scope.  The general confidence string of the response carries no
percent sign (line 220). -/
def analyze (env : Env) (grouped : List (String × List Item)) : AnalyzeResult :=
  match grouped.foldl (analyzeStep env) ([], [], 0) with
  | (breakdown, allSents, total) =>
    { general :=
        { category := (hybrid_detect env (joinTexts allSents)).1,
          risk := (generalRisk (hybrid_detect env (joinTexts allSents)).1 total).1,
          color := (generalRisk (hybrid_detect env (joinTexts allSents)).1 total).2,
          advice := ((CATEGORIES_ADVICE.lookup (hybrid_detect env (joinTexts allSents)).1).getD
            "No advice available."),
          method := (hybrid_detect env (joinTexts allSents)).2.1,
          confidence := pctString (hybrid_detect env (joinTexts allSents)).2.2 },
      breakdown := breakdown }

/-- Sections kept by the loop of analyze: those with a nonempty item list. -/
def keptSections (grouped : List (String × List Item)) : List (String × List Item) :=
  grouped.filter (fun sec => !sec.2.isEmpty)

/-- The section outcome computed by the loop body for a kept section. -/
def outcomeOf (env : Env) (items : List Item) : SectionOutcome :=
  { category := (hybrid_detect env (sectionText items)).1,
    risk := (sectionRisk (hybrid_detect env (sectionText items)).1 (sectionScore items)).1,
    color := (sectionRisk (hybrid_detect env (sectionText items)).1 (sectionScore items)).2,
    confidence := pctString (hybrid_detect env (sectionText items)).2.2 ++ "%" }

/-- Breakdown produced by the loop of analyze. -/
def breakdownOf (env : Env) (grouped : List (String × List Item)) :
    List (String × SectionOutcome) :=
  (keptSections grouped).map (fun sec => (sec.1, outcomeOf env sec.2))

/-- Section texts collected by the loop of analyze. -/
def sentencesOf (grouped : List (String × List Item)) : List String :=
  (keptSections grouped).map (fun sec => sectionText sec.2)

/-- Total risk score accumulated by the loop of analyze. -/
def totalScore (grouped : List (String × List Item)) : ℚ :=
  ((keptSections grouped).map (fun sec => sectionScore sec.2)).sum

/-- The full text classified for the general outcome (src/api.py line 208). -/
def fullTextOf (grouped : List (String × List Item)) : String :=
  joinTexts (sentencesOf grouped)

/-- Number of non-whitespace characters of a text.  Follows the words of
the spec (testable property 1: text shorter than 5 non-whitespace
characters), to be compared with the guard of hybrid_detect. -/
def specNonWsCount (s : String) : Nat :=
  (s.toList.filter (fun c => !c.isWhitespace)).length

/-- Predicate on an oracle probability output: every probability it reports
lies in the unit interval (contract of a probability vector). -/
def probShapeOK : Option ProbShape → Prop
  | none => True
  | some (ProbShape.scalar q) => 0 ≤ q ∧ q ≤ 1
  | some (ProbShape.vec hd tl) => ∀ x ∈ hd :: tl, 0 ≤ x ∧ x ≤ 1

/-- Oracle with no model loaded: both load calls failed at startup. -/
def env0 : Env :=
  { topicLoaded := false, topicOf := fun _ => 0, probsOf := fun _ => none,
    embLoaded := false, simOf := fun _ _ => 0 }

/-! Helper lemmas about the keyword scan, the max over a probability
vector, the semantic similarity loop, the layers and the analyze fold. -/

theorem scanKeywords_first (tl : List Char) :
    ∀ table : List (String × String),
    (∃ kc ∈ table, containsSub kc.1.toList tl = true) →
    ∃ pre k c post, table = pre ++ (k, c) :: post ∧ containsSub k.toList tl = true ∧
      (∀ kc ∈ pre, containsSub kc.1.toList tl = false) ∧
      scanKeywords table tl = some c := by
  intro table
  induction table with
  | nil => rintro ⟨kc, hmem, _⟩; cases hmem
  | cons hd rest ih =>
    intro hex
    obtain ⟨k0, v0⟩ := hd
    have hstep : scanKeywords ((k0, v0) :: rest) tl =
        if containsSub k0.toList tl then some v0 else scanKeywords rest tl := rfl
    by_cases h : containsSub k0.toList tl = true
    · refine ⟨[], k0, v0, rest, rfl, h, ?_, ?_⟩
      · intro kc hkc; cases hkc
      · rw [hstep, if_pos h]
    · have h' : containsSub k0.toList tl = false := by
        cases hc : containsSub k0.toList tl with
        | true => exact absurd hc h
        | false => rfl
      have hex' : ∃ kc ∈ rest, containsSub kc.1.toList tl = true := by
        rcases hex with ⟨kc, hmem, hc⟩
        rcases List.mem_cons.mp hmem with heq | hrest
        · rw [heq] at hc; exact absurd hc h
        · exact ⟨kc, hrest, hc⟩
      rcases ih hex' with ⟨pre, k, c, post, heq, hc, hpre, hscan⟩
      refine ⟨(k0, v0) :: pre, k, c, post, by rw [heq]; rfl, hc, ?_, ?_⟩
      · intro kc hkc
        rcases List.mem_cons.mp hkc with heq' | hpre'
        · rw [heq']; exact h'
        · exact hpre kc hpre'
      · rw [hstep, if_neg h, hscan]

theorem init_le_maxList : ∀ (tl : List ℚ) (hd : ℚ), hd ≤ maxList hd tl := by
  intro tl
  induction tl with
  | nil => intro hd; exact le_refl hd
  | cons a tl ih =>
    intro hd
    calc hd ≤ max hd a := le_max_left hd a
    _ ≤ maxList (max hd a) tl := ih (max hd a)

theorem le_maxList : ∀ (tl : List ℚ) (hd : ℚ) (x : ℚ), x ∈ hd :: tl → x ≤ maxList hd tl := by
  intro tl
  induction tl with
  | nil =>
    intro hd x hx
    rcases List.mem_cons.mp hx with h | h
    · rw [h]; exact le_refl hd
    · cases h
  | cons a tl ih =>
    intro hd x hx
    rcases List.mem_cons.mp hx with h | h
    · rw [h]
      calc hd ≤ max hd a := le_max_left hd a
      _ ≤ maxList (max hd a) tl := init_le_maxList tl (max hd a)
    · rcases List.mem_cons.mp h with h' | h'
      · rw [h']
        calc a ≤ max hd a := le_max_right hd a
        _ ≤ maxList (max hd a) tl := init_le_maxList tl (max hd a)
      · exact ih (max hd a) x (List.mem_cons_of_mem _ h')

theorem maxList_mem : ∀ (tl : List ℚ) (hd : ℚ), maxList hd tl ∈ hd :: tl := by
  intro tl
  induction tl with
  | nil => intro hd; exact List.mem_singleton.mpr rfl
  | cons a tl ih =>
    intro hd
    have h := ih (max hd a)
    rcases List.mem_cons.mp h with h' | h'
    · rcases max_choice hd a with hm | hm
      · rw [show maxList hd (a :: tl) = maxList (max hd a) tl from rfl, h', hm]
        exact List.mem_cons_self hd _
      · rw [show maxList hd (a :: tl) = maxList (max hd a) tl from rfl, h', hm]
        exact List.mem_cons_of_mem _ (List.mem_cons_self a tl)
    · exact List.mem_cons_of_mem _ (List.mem_cons_of_mem _ h')

theorem semLoop_acc_le (sim : String → ℚ) :
    ∀ (l : List String) (acc : String × ℚ), acc.2 ≤ (semLoop sim l acc).2 := by
  intro l
  induction l with
  | nil => intro acc; exact le_refl acc.2
  | cons c cs ih =>
    intro acc
    by_cases h : acc.2 < sim c
    · have : semLoop sim (c :: cs) acc = semLoop sim cs (c, sim c) := by
        simp [semLoop, h]
      rw [this]
      exact le_trans (le_of_lt h) (ih (c, sim c))
    · have : semLoop sim (c :: cs) acc = semLoop sim cs acc := by
        simp [semLoop, h]
      rw [this]
      exact ih acc

theorem semLoop_le_of_mem (sim : String → ℚ) :
    ∀ (l : List String) (acc : String × ℚ) (c : String), c ∈ l →
      sim c ≤ (semLoop sim l acc).2 := by
  intro l
  induction l with
  | nil => intro acc c hc; cases hc
  | cons a as ih =>
    intro acc c hc
    by_cases h : acc.2 < sim a
    · have he : semLoop sim (a :: as) acc = semLoop sim as (a, sim a) := by simp [semLoop, h]
      rw [he]
      rcases List.mem_cons.mp hc with h' | h'
      · rw [h']
        exact semLoop_acc_le sim as (a, sim a)
      · exact ih (a, sim a) c h'
    · have he : semLoop sim (a :: as) acc = semLoop sim as acc := by simp [semLoop, h]
      rw [he]
      rcases List.mem_cons.mp hc with h' | h'
      · rw [h']
        exact le_trans (le_of_not_lt h) (semLoop_acc_le sim as acc)
      · exact ih acc c h'

theorem semLoop_cases (sim : String → ℚ) :
    ∀ (l : List String) (acc : String × ℚ),
      semLoop sim l acc = acc ∨ ∃ c ∈ l, semLoop sim l acc = (c, sim c) := by
  intro l
  induction l with
  | nil => intro acc; exact Or.inl rfl
  | cons a as ih =>
    intro acc
    by_cases h : acc.2 < sim a
    · have he : semLoop sim (a :: as) acc = semLoop sim as (a, sim a) := by simp [semLoop, h]
      rcases ih (a, sim a) with h' | ⟨c, hc, h'⟩
      · exact Or.inr ⟨a, List.mem_cons_self a as, by rw [he, h']⟩
      · exact Or.inr ⟨c, List.mem_cons_of_mem _ hc, by rw [he, h']⟩
    · have he : semLoop sim (a :: as) acc = semLoop sim as acc := by simp [semLoop, h]
      rcases ih acc with h' | ⟨c, hc, h'⟩
      · exact Or.inl (by rw [he, h'])
      · exact Or.inr ⟨c, List.mem_cons_of_mem _ hc, by rw [he, h']⟩

theorem hd_guard (env : Env) (text : String)
    (h : text = "" ∨ (stripChars text.toList).length < 5) :
    hybrid_detect env text = ("Healthy/Low Risk", "Insufficient Data", 0) := by
  rw [hybrid_detect, if_pos h]

theorem hd_keyword (env : Env) (text : String) (c : String)
    (hguard : ¬(text = "" ∨ (stripChars text.toList).length < 5))
    (hkw : scanKeywords KEYWORD_TO_CATEGORY (text.toList.map Char.toLower) = some c) :
    hybrid_detect env text = (c, "Manual Keyword Match", 1) := by
  rw [hybrid_detect, if_neg hguard, hkw]

theorem hd_topic (env : Env) (text : String) (r : String × String × ℚ)
    (hguard : ¬(text = "" ∨ (stripChars text.toList).length < 5))
    (hkw : scanKeywords KEYWORD_TO_CATEGORY (text.toList.map Char.toLower) = none)
    (ht : topicLayer env text = some r) :
    hybrid_detect env text = r := by
  rw [hybrid_detect, if_neg hguard, hkw]
  simp only [ht]

theorem hd_semantic (env : Env) (text : String) (r : String × String × ℚ)
    (hguard : ¬(text = "" ∨ (stripChars text.toList).length < 5))
    (hkw : scanKeywords KEYWORD_TO_CATEGORY (text.toList.map Char.toLower) = none)
    (ht : topicLayer env text = none)
    (hs : semanticLayer env text = some r) :
    hybrid_detect env text = r := by
  rw [hybrid_detect, if_neg hguard, hkw]
  simp only [ht, hs]

theorem hd_default (env : Env) (text : String)
    (hguard : ¬(text = "" ∨ (stripChars text.toList).length < 5))
    (hkw : scanKeywords KEYWORD_TO_CATEGORY (text.toList.map Char.toLower) = none)
    (ht : topicLayer env text = none)
    (hs : semanticLayer env text = none) :
    hybrid_detect env text = ("Healthy/Low Risk", "System Default", 0) := by
  rw [hybrid_detect, if_neg hguard, hkw]
  simp only [ht, hs]

theorem topicLayer_none (env : Env) (text : String)
    (h : env.topicLoaded = false ∨ TOPIC_MAPPING.lookup (env.topicOf text) = none) :
    topicLayer env text = none := by
  rcases h with h | h
  · rw [topicLayer, h]; rfl
  · rw [topicLayer, h]
    split
    · rfl
    · rfl

theorem topicLayer_some (env : Env) (text : String) (cat : String)
    (hl : env.topicLoaded = true)
    (hm : TOPIC_MAPPING.lookup (env.topicOf text) = some cat) :
    topicLayer env text =
      some (cat, "AI Cluster " ++ toString (env.topicOf text), extractConf (env.probsOf text)) := by
  rw [topicLayer, hl, hm]
  rfl

theorem topicLayer_some_inv (env : Env) (text : String) (r : String × String × ℚ)
    (h : topicLayer env text = some r) :
    env.topicLoaded = true ∧ ∃ cat, TOPIC_MAPPING.lookup (env.topicOf text) = some cat ∧
      r = (cat, "AI Cluster " ++ toString (env.topicOf text), extractConf (env.probsOf text)) := by
  rw [topicLayer] at h
  cases hl : env.topicLoaded with
  | false => rw [hl] at h; cases h
  | true =>
    rw [hl] at h
    refine ⟨rfl, ?_⟩
    cases hm : TOPIC_MAPPING.lookup (env.topicOf text) with
    | none => rw [hm] at h; cases h
    | some cat =>
      rw [hm] at h
      exact ⟨cat, rfl, (Option.some.injEq .. ▸ h).symm⟩

theorem semanticLayer_eq (env : Env) (text : String) (bc : String) (hs : ℚ)
    (he : env.embLoaded = true)
    (hl : semLoop (env.simOf text) ANCHOR_CATS ("Neutral / Unclassified", 0) = (bc, hs)) :
    semanticLayer env text =
      if 0.35 < hs then some (bc, "AI Semantic Similarity", hs) else none := by
  rw [semanticLayer, he, hl]
  rfl

theorem semanticLayer_off (env : Env) (text : String) (he : env.embLoaded = false) :
    semanticLayer env text = none := by
  rw [semanticLayer, he]
  rfl

theorem semanticLayer_some_inv (env : Env) (text : String) (r : String × String × ℚ)
    (h : semanticLayer env text = some r) :
    env.embLoaded = true ∧ ∃ bc hs,
      semLoop (env.simOf text) ANCHOR_CATS ("Neutral / Unclassified", 0) = (bc, hs) ∧
      0.35 < hs ∧ r = (bc, "AI Semantic Similarity", hs) := by
  cases he : env.embLoaded with
  | false => rw [semanticLayer_off env text he] at h; cases h
  | true =>
    rcases hl : semLoop (env.simOf text) ANCHOR_CATS ("Neutral / Unclassified", 0) with ⟨bc, hs⟩
    rw [semanticLayer_eq env text bc hs he hl] at h
    by_cases hgt : (0.35 : ℚ) < hs
    · rw [if_pos hgt] at h
      exact ⟨rfl, bc, hs, rfl, hgt, (Option.some.injEq .. ▸ h).symm⟩
    · rw [if_neg hgt] at h; cases h

theorem analyzeStep_skip (env : Env) (bd : List (String × SectionOutcome)) (sents : List String)
    (total : ℚ) (name : String) :
    analyzeStep env (bd, sents, total) (name, []) = (bd, sents, total) := rfl

theorem analyzeStep_keep (env : Env) (bd : List (String × SectionOutcome)) (sents : List String)
    (total : ℚ) (name : String) (i : Item) (items : List Item) :
    analyzeStep env (bd, sents, total) (name, i :: items) =
      (bd ++ [(name, outcomeOf env (i :: items))], sents ++ [sectionText (i :: items)],
       total + sectionScore (i :: items)) := rfl

theorem breakdownOf_skip (env : Env) (name : String) (l : List (String × List Item)) :
    breakdownOf env ((name, []) :: l) = breakdownOf env l := rfl

theorem breakdownOf_keep (env : Env) (name : String) (i : Item) (items : List Item)
    (l : List (String × List Item)) :
    breakdownOf env ((name, i :: items) :: l) =
      (name, outcomeOf env (i :: items)) :: breakdownOf env l := rfl

theorem sentencesOf_skip (name : String) (l : List (String × List Item)) :
    sentencesOf ((name, []) :: l) = sentencesOf l := rfl

theorem sentencesOf_keep (name : String) (i : Item) (items : List Item)
    (l : List (String × List Item)) :
    sentencesOf ((name, i :: items) :: l) = sectionText (i :: items) :: sentencesOf l := rfl

theorem totalScore_skip (name : String) (l : List (String × List Item)) :
    totalScore ((name, []) :: l) = totalScore l := rfl

theorem totalScore_keep (name : String) (i : Item) (items : List Item)
    (l : List (String × List Item)) :
    totalScore ((name, i :: items) :: l) = sectionScore (i :: items) + totalScore l := by
  rw [totalScore, totalScore]
  rfl

theorem analyze_foldl (env : Env) :
    ∀ (l : List (String × List Item)) (bd : List (String × SectionOutcome))
      (sents : List String) (total : ℚ),
      l.foldl (analyzeStep env) (bd, sents, total) =
        (bd ++ breakdownOf env l, sents ++ sentencesOf l, total + totalScore l) := by
  intro l
  induction l with
  | nil =>
    intro bd sents total
    show (bd, sents, total) = (bd ++ [], sents ++ [], total + 0)
    rw [List.append_nil, List.append_nil, add_zero]
  | cons sec l ih =>
    intro bd sents total
    obtain ⟨name, items⟩ := sec
    cases items with
    | nil =>
      rw [List.foldl_cons, analyzeStep_skip, ih, breakdownOf_skip, sentencesOf_skip,
        totalScore_skip]
    | cons i items =>
      rw [List.foldl_cons, analyzeStep_keep, ih, breakdownOf_keep, sentencesOf_keep,
        totalScore_keep, List.append_assoc, List.append_assoc, add_assoc]
      rfl

theorem analyze_eq (env : Env) (grouped : List (String × List Item)) :
    analyze env grouped =
      { general :=
          { category := (hybrid_detect env (fullTextOf grouped)).1,
            risk := (generalRisk (hybrid_detect env (fullTextOf grouped)).1 (totalScore grouped)).1,
            color := (generalRisk (hybrid_detect env (fullTextOf grouped)).1 (totalScore grouped)).2,
            advice := ((CATEGORIES_ADVICE.lookup (hybrid_detect env (fullTextOf grouped)).1).getD
              "No advice available."),
            method := (hybrid_detect env (fullTextOf grouped)).2.1,
            confidence := pctString (hybrid_detect env (fullTextOf grouped)).2.2 },
        breakdown := breakdownOf env grouped } := by
  rw [analyze, analyze_foldl env grouped [] [] 0]
  rw [List.nil_append, List.nil_append, zero_add]
  rfl

theorem strToList_append (a b : String) : (a ++ b).toList = a.toList ++ b.toList := rfl

theorem getLast_append_singleton (l1 l2 : List Char) (c : Char) :
    (l1 ++ (l2 ++ [c])).getLast? = some c := by
  rw [← List.append_assoc]
  exact List.getLast?_concat _

theorem endsPct_append (s : String) : endsPct (s ++ "%") = true := by
  rw [endsPct]
  have h : (s ++ "%").toList = s.toList ++ ['%'] := rfl
  rw [h, List.getLast?_concat]
  rfl

theorem fmtTenths_last (n : Int) :
    (fmtTenths n).toList.getLast? = some (Nat.digitChar (n.natAbs % 10)) := by
  rw [fmtTenths]
  by_cases h : n < 0
  · rw [if_pos h]
    have h1 : (("-" : String) ++
        (toString (n.natAbs / 10) ++ "." ++ String.mk [Nat.digitChar (n.natAbs % 10)])).toList
        = "-".toList ++ ((toString (n.natAbs / 10) ++ ".").toList ++ [Nat.digitChar (n.natAbs % 10)]) := rfl
    rw [h1]
    exact getLast_append_singleton ..
  · rw [if_neg h]
    have h1 : (toString (n.natAbs / 10) ++ "." ++ String.mk [Nat.digitChar (n.natAbs % 10)]).toList
        = (toString (n.natAbs / 10) ++ ".").toList ++ [Nat.digitChar (n.natAbs % 10)] := rfl
    rw [h1, List.getLast?_concat]

theorem digitChar_ne_pct : ∀ k < 10, Nat.digitChar k ≠ '%' := by decide

theorem pctString_ends_false (c : ℚ) : endsPct (pctString c) = false := by
  rw [endsPct, pctString, fmtTenths_last]
  have h : (roundHalfEven (c * 100 * 10)).natAbs % 10 < 10 :=
    Nat.mod_lt _ (by norm_num)
  have hne := digitChar_ne_pct _ h
  have : (Nat.digitChar ((roundHalfEven (c * 100 * 10)).natAbs % 10) == '%') = false :=
    beq_eq_false_iff_ne.mpr hne
  show (some (Nat.digitChar ((roundHalfEven (c * 100 * 10)).natAbs % 10)) == some '%') = false
  rw [show (some (Nat.digitChar ((roundHalfEven (c * 100 * 10)).natAbs % 10)) == some '%')
      = (Nat.digitChar ((roundHalfEven (c * 100 * 10)).natAbs % 10) == '%') from rfl, this]

theorem listIsPre_append (a b : List Char) : listIsPre a (a ++ b) = true := by
  induction a with
  | nil => rfl
  | cons c cs ih => simp [listIsPre, ih]

theorem strHasPre_cluster (s : String) : strHasPre "AI Cluster" ("AI Cluster " ++ s) = true := by
  rw [strHasPre]
  have h1 : ("AI Cluster " ++ s).toList = "AI Cluster ".toList ++ s.toList := rfl
  have h2 : ("AI Cluster " : String).toList = ("AI Cluster" : String).toList ++ [' '] := rfl
  rw [h1, h2, List.append_assoc]
  exact listIsPre_append _ _

theorem totalScore_eq_sum (grouped : List (String × List Item)) :
    totalScore grouped = (grouped.map (fun sec => sectionScore sec.2)).sum := by
  induction grouped with
  | nil => rfl
  | cons sec l ih =>
    obtain ⟨name, items⟩ := sec
    cases items with
    | nil =>
      rw [totalScore_skip, ih, List.map_cons, List.sum_cons]
      show (l.map (fun sec => sectionScore sec.2)).sum
        = sectionScore [] + (l.map (fun sec => sectionScore sec.2)).sum
      rw [show sectionScore [] = 0 from rfl, zero_add]
    | cons i items =>
      rw [totalScore_keep, ih, List.map_cons, List.sum_cons]

theorem sectionRisk_severe_iff (cat : String) (score : ℚ) :
    sectionRisk cat score = ("Severe", "red") ↔ cat = "Physical Abuse" := by
  constructor
  · intro h
    by_contra hne
    rw [sectionRisk, if_neg hne] at h
    by_cases h6 : (6 : ℚ) ≤ score
    · rw [if_pos h6] at h; exact absurd h (by decide)
    · rw [if_neg h6] at h
      by_cases h2 : (2 : ℚ) ≤ score
      · rw [if_pos h2] at h; exact absurd h (by decide)
      · rw [if_neg h2] at h; exact absurd h (by decide)
  · intro h
    rw [sectionRisk, if_pos h]

theorem sectionRisk_not_pa (cat : String) (score : ℚ) (h : cat ≠ "Physical Abuse") :
    sectionRisk cat score =
      if 6 ≤ score then ("High", "orange")
      else if 2 ≤ score then ("Moderate", "yellow")
      else ("Low", "green") := by
  rw [sectionRisk, if_neg h]

theorem generalRisk_severe_iff (cat : String) (total : ℚ) :
    generalRisk cat total = ("Severe", "red") ↔ cat = "Physical Abuse" := by
  constructor
  · intro h
    by_contra hne
    rw [generalRisk, if_neg hne] at h
    by_cases h10 : (10 : ℚ) ≤ total
    · rw [if_pos h10] at h; exact absurd h (by decide)
    · rw [if_neg h10] at h
      by_cases h3 : (3 : ℚ) ≤ total
      · rw [if_pos h3] at h; exact absurd h (by decide)
      · rw [if_neg h3] at h; exact absurd h (by decide)
  · intro h
    rw [generalRisk, if_pos h]

theorem generalRisk_not_pa (cat : String) (total : ℚ) (h : cat ≠ "Physical Abuse") :
    generalRisk cat total =
      if 10 ≤ total then ("High", "orange")
      else if 3 ≤ total then ("Moderate", "yellow")
      else ("Low", "green") := by
  rw [generalRisk, if_neg h]

theorem breakdownOf_mem (env : Env) :
    ∀ (grouped : List (String × List Item)) (p : String × SectionOutcome),
      p ∈ breakdownOf env grouped →
      ∃ items, (p.1, items) ∈ grouped ∧ items ≠ [] ∧ p.2 = outcomeOf env items := by
  intro grouped
  induction grouped with
  | nil => intro p hp; cases hp
  | cons sec l ih =>
    intro p hp
    obtain ⟨name, items⟩ := sec
    cases items with
    | nil =>
      rw [breakdownOf_skip] at hp
      rcases ih p hp with ⟨its, hmem, hne, hout⟩
      exact ⟨its, List.mem_cons_of_mem _ hmem, hne, hout⟩
    | cons i its =>
      rw [breakdownOf_keep] at hp
      rcases List.mem_cons.mp hp with heq | hrest
      · refine ⟨i :: its, ?_, List.cons_ne_nil i its, ?_⟩
        · rw [heq]
          exact List.mem_cons_self _ _
        · rw [heq]
      · rcases ih p hrest with ⟨its', hmem, hne, hout⟩
        exact ⟨its', List.mem_cons_of_mem _ hmem, hne, hout⟩

/-! Claims -/

/-- Claim C1: for every section of the request that appears in the
breakdown, the reported risk and color are the per-section risk policy
applied to the classified category of the section text and the weight sum;
the risk is Severe with color red exactly when the category is Physical
Abuse, independent of the weight sum, and otherwise the thresholds 6
(High/orange) and 2 (Moderate/yellow) are checked in this order, with Low
and green as the final case. -/
theorem claim1_section_risk (env : Env) (grouped : List (String × List Item))
    (p : String × SectionOutcome) (hp : p ∈ (analyze env grouped).breakdown) :
    ∃ items, (p.1, items) ∈ grouped ∧ items ≠ [] ∧
      p.2.category = (hybrid_detect env (sectionText items)).1 ∧
      (p.2.risk, p.2.color) = sectionRisk p.2.category (sectionScore items) ∧
      ((p.2.risk, p.2.color) = ("Severe", "red") ↔ p.2.category = "Physical Abuse") ∧
      (p.2.category ≠ "Physical Abuse" →
        (p.2.risk, p.2.color) =
          if 6 ≤ sectionScore items then ("High", "orange")
          else if 2 ≤ sectionScore items then ("Moderate", "yellow")
          else ("Low", "green")) := by
  have hp' : p ∈ breakdownOf env grouped := by
    rw [analyze_eq] at hp
    exact hp
  obtain ⟨items, hmem, hne, hout⟩ := breakdownOf_mem env grouped p hp'
  refine ⟨items, hmem, hne, ?_, ?_, ?_, ?_⟩
  · rw [hout]
    rfl
  · rw [hout]
    rfl
  · rw [hout]
    exact sectionRisk_severe_iff ((hybrid_detect env (sectionText items)).1) (sectionScore items)
  · rw [hout]
    intro hne'
    exact sectionRisk_not_pa _ _ hne'

-- Concrete request and expected outcome used by the witness of claim C1:
-- one section "Section A" with the text "he hit me" and weight 5.
def reqA : List (String × List Item) := [("Section A", [⟨"he hit me", 5⟩])]

def outA : SectionOutcome :=
  { category := "Physical Abuse", risk := "Severe", color := "red", confidence := "100.0%" }

-- Witness for claim C1: the keyword layer classifies "he hit me" as
-- Physical Abuse, and the breakdown reports Severe and red although the
-- score 5 is below the High threshold.
unseal Rat.mul Rat.add Rat.sub Rat.inv Rat.ofScientific in
theorem claim1_section_risk_witness :
    (("Section A", outA) ∈ (analyze env0 reqA).breakdown) ∧
    (∃ items, ("Section A", items) ∈ reqA ∧ items ≠ [] ∧
      outA.category = (hybrid_detect env0 (sectionText items)).1 ∧
      (outA.risk, outA.color) = sectionRisk outA.category (sectionScore items) ∧
      ((outA.risk, outA.color) = ("Severe", "red") ↔ outA.category = "Physical Abuse") ∧
      (outA.category ≠ "Physical Abuse" →
        (outA.risk, outA.color) =
          if 6 ≤ sectionScore items then ("High", "orange")
          else if 2 ≤ sectionScore items then ("Moderate", "yellow")
          else ("Low", "green"))) :=
  ⟨by decide, claim1_section_risk env0 reqA ("Section A", outA) (by decide)⟩

/-- Claim C2: for every request, the overall category of the analyze result
is the hybrid classification of the concatenation of all kept section
texts, the accumulated total equals the sum of all section weight sums, the
overall risk and color are the overall risk policy applied to that category
and total, and the overall policy is Severe/red exactly on Physical Abuse
and otherwise checks the thresholds 10 and 3 in this order. -/
theorem claim2_overall (env : Env) (grouped : List (String × List Item)) :
    (analyze env grouped).general.category = (hybrid_detect env (fullTextOf grouped)).1 ∧
    totalScore grouped = (grouped.map (fun sec => sectionScore sec.2)).sum ∧
    ((analyze env grouped).general.risk, (analyze env grouped).general.color)
      = generalRisk ((analyze env grouped).general.category) (totalScore grouped) ∧
    (∀ cat total, (generalRisk cat total = ("Severe", "red") ↔ cat = "Physical Abuse") ∧
      (cat ≠ "Physical Abuse" → generalRisk cat total =
        if 10 ≤ total then ("High", "orange")
        else if 3 ≤ total then ("Moderate", "yellow")
        else ("Low", "green"))) := by
  refine ⟨?_, totalScore_eq_sum grouped, ?_, ?_⟩
  · rw [analyze_eq]
  · rw [analyze_eq]
  · intro cat total
    exact ⟨generalRisk_severe_iff cat total, generalRisk_not_pa cat total⟩

theorem analyzeStep_skip_any (env : Env)
    (acc : List (String × SectionOutcome) × List String × ℚ) (name : String) :
    analyzeStep env acc (name, []) = acc := by
  obtain ⟨bd, sents, total⟩ := acc
  rfl

/-- Claim C10: a section whose item list is empty is silently skipped by
analyze: the result of the request containing it equals the result of the
request without it, so it appears nowhere in the breakdown, contributes no
text to the overall classification and adds nothing to the total score. -/
theorem claim10_empty_section (env : Env) (pre post : List (String × List Item))
    (name : String) :
    analyze env (pre ++ (name, []) :: post) = analyze env (pre ++ post) := by
  rw [analyze, analyze, List.foldl_append, List.foldl_append, List.foldl_cons,
    analyzeStep_skip_any]

/-- Claim C3: for every text passing the length guard whose lowercased form
contains at least one configured trigger substring, hybrid_detect returns
the category mapped from the first matching trigger in the insertion order
of the keyword table, with confidence exactly 1 and method Manual Keyword
Match, for every state of the topic and semantic layers. -/
theorem claim3_keyword_layer (env : Env) (text : String)
    (hguard : ¬(text = "" ∨ (stripChars text.toList).length < 5))
    (hkw : ∃ kc ∈ KEYWORD_TO_CATEGORY,
      containsSub kc.1.toList (text.toList.map Char.toLower) = true) :
    ∃ pre k c post, KEYWORD_TO_CATEGORY = pre ++ (k, c) :: post ∧
      containsSub k.toList (text.toList.map Char.toLower) = true ∧
      (∀ kc ∈ pre, containsSub kc.1.toList (text.toList.map Char.toLower) = false) ∧
      hybrid_detect env text = (c, "Manual Keyword Match", 1) := by
  rcases scanKeywords_first (text.toList.map Char.toLower) KEYWORD_TO_CATEGORY hkw with
    ⟨pre, k, c, post, heq, hc, hpre, hscan⟩
  exact ⟨pre, k, c, post, heq, hc, hpre, hd_keyword env text c hguard hscan⟩

-- Witness for claim C3 at the text "he will kill me" with no model loaded:
-- the trigger "kill" matches and forces Physical Abuse with confidence 1.
unseal Rat.mul Rat.add Rat.sub Rat.inv Rat.ofScientific in
theorem claim3_keyword_layer_witness :
    (¬(("he will kill me" : String) = "" ∨
      (stripChars ("he will kill me" : String).toList).length < 5)) ∧
    (∃ kc ∈ KEYWORD_TO_CATEGORY,
      containsSub kc.1.toList (("he will kill me" : String).toList.map Char.toLower) = true) ∧
    (∃ pre k c post, KEYWORD_TO_CATEGORY = pre ++ (k, c) :: post ∧
      containsSub k.toList (("he will kill me" : String).toList.map Char.toLower) = true ∧
      (∀ kc ∈ pre,
        containsSub kc.1.toList (("he will kill me" : String).toList.map Char.toLower) = false) ∧
      hybrid_detect env0 "he will kill me" = (c, "Manual Keyword Match", 1)) :=
  ⟨by decide, by decide, claim3_keyword_layer env0 "he will kill me" (by decide) (by decide)⟩

-- Counterexample to claim C4 as stated: the text "hit u" has only 4
-- non-whitespace characters, yet the guard of hybrid_detect, which checks
-- the length of the stripped text (5 here), lets it through, and the
-- keyword layer classifies it as Physical Abuse.
unseal Rat.mul Rat.add Rat.sub Rat.inv Rat.ofScientific in
theorem claim4_counterexample :
    specNonWsCount "hit u" < 5 ∧
    hybrid_detect env0 "hit u" = ("Physical Abuse", "Manual Keyword Match", 1) ∧
    hybrid_detect env0 "hit u" ≠ ("Healthy/Low Risk", "Insufficient Data", 0) := by
  decide

/-- Claim C4 (amended): for every text that is empty or whose
whitespace-stripped form has fewer than 5 characters, hybrid_detect returns
exactly (Healthy/Low Risk, Insufficient Data, 0), and the result does not
depend on any classification layer or model state. -/
theorem claim4_guard (env env2 : Env) (text : String)
    (h : (stripChars text.toList).length < 5) :
    hybrid_detect env text = ("Healthy/Low Risk", "Insufficient Data", 0) ∧
    hybrid_detect env text = hybrid_detect env2 text := by
  have h1 := hd_guard env text (Or.inr h)
  have h2 := hd_guard env2 text (Or.inr h)
  exact ⟨h1, by rw [h1, h2]⟩

-- Witness for the amended claim C4 at the two-character text "hi".
unseal Rat.mul Rat.add Rat.sub Rat.inv Rat.ofScientific in
theorem claim4_guard_witness :
    ((stripChars ("hi" : String).toList).length < 5) ∧
    (hybrid_detect env0 "hi" = ("Healthy/Low Risk", "Insufficient Data", 0) ∧
     hybrid_detect env0 "hi" = hybrid_detect env0 "hi") :=
  ⟨by decide, claim4_guard env0 env0 "hi" (by decide)⟩

/-- Claim C5: for every input reaching the topic layer with a loaded topic
model whose produced topic id is mapped by the topic table, the result has
the mapped category and the method AI Cluster followed by the id, and the
confidence follows the exact fallback chain: the maximum of the elements
when the probability is an iterable, the scalar itself when it is a single
value, and exactly 0.5 when no probability is available. -/
theorem claim5_topic_confidence (env : Env) (text : String) (cat : String)
    (hguard : ¬(text = "" ∨ (stripChars text.toList).length < 5))
    (hkw : scanKeywords KEYWORD_TO_CATEGORY (text.toList.map Char.toLower) = none)
    (hload : env.topicLoaded = true)
    (hmap : TOPIC_MAPPING.lookup (env.topicOf text) = some cat) :
    (hybrid_detect env text).1 = cat ∧
    (hybrid_detect env text).2.1 = "AI Cluster " ++ toString (env.topicOf text) ∧
    (env.probsOf text = none → (hybrid_detect env text).2.2 = 0.5) ∧
    (∀ q, env.probsOf text = some (ProbShape.scalar q) → (hybrid_detect env text).2.2 = q) ∧
    (∀ hd tl, env.probsOf text = some (ProbShape.vec hd tl) →
      (hybrid_detect env text).2.2 = maxList hd tl ∧ maxList hd tl ∈ hd :: tl ∧
      ∀ x ∈ hd :: tl, x ≤ maxList hd tl) := by
  have ht := topicLayer_some env text cat hload hmap
  have hres := hd_topic env text _ hguard hkw ht
  rw [hres]
  refine ⟨rfl, rfl, ?_, ?_, ?_⟩
  · intro hp
    show extractConf (env.probsOf text) = 0.5
    rw [hp]
    rfl
  · intro q hp
    show extractConf (env.probsOf text) = q
    rw [hp]
    rfl
  · intro hd0 tl0 hp
    refine ⟨?_, maxList_mem tl0 hd0, fun x hx => le_maxList tl0 hd0 x hx⟩
    show extractConf (env.probsOf text) = maxList hd0 tl0
    rw [hp]
    rfl

-- Oracle used by the witness of claim C5: topic model loaded, topic id 2
-- for every text, probability vector [0.2, 0.7, 0.4], no embedding model.
def env1 : Env :=
  { topicLoaded := true, topicOf := fun _ => 2,
    probsOf := fun _ => some (ProbShape.vec (1/5) [7/10, 2/5]),
    embLoaded := false, simOf := fun _ _ => 0 }

-- Witness for claim C5 at the keyword-free text "abcdef" under env1: the
-- result is Control & Manipulation via AI Cluster 2 with confidence 0.7.
unseal Rat.mul Rat.add Rat.sub Rat.inv Rat.ofScientific in
theorem claim5_topic_confidence_witness :
    (¬(("abcdef" : String) = "" ∨ (stripChars ("abcdef" : String).toList).length < 5)) ∧
    (scanKeywords KEYWORD_TO_CATEGORY (("abcdef" : String).toList.map Char.toLower) = none) ∧
    (env1.topicLoaded = true) ∧
    (TOPIC_MAPPING.lookup (env1.topicOf "abcdef") = some "Control & Manipulation") ∧
    ((hybrid_detect env1 "abcdef").1 = "Control & Manipulation" ∧
     (hybrid_detect env1 "abcdef").2.1 = "AI Cluster " ++ toString (env1.topicOf "abcdef") ∧
     (env1.probsOf "abcdef" = none → (hybrid_detect env1 "abcdef").2.2 = 0.5) ∧
     (∀ q, env1.probsOf "abcdef" = some (ProbShape.scalar q) →
       (hybrid_detect env1 "abcdef").2.2 = q) ∧
     (∀ hd tl, env1.probsOf "abcdef" = some (ProbShape.vec hd tl) →
       (hybrid_detect env1 "abcdef").2.2 = maxList hd tl ∧ maxList hd tl ∈ hd :: tl ∧
       ∀ x ∈ hd :: tl, x ≤ maxList hd tl)) :=
  ⟨by decide, by decide, rfl, by decide,
    claim5_topic_confidence env1 "abcdef" "Control & Manipulation"
      (by decide) (by decide) rfl (by decide)⟩

/-- Claim C6: for every input reaching the semantic layer with a loaded
embedding model, with (bc, hs) the best category and score of the
similarity loop: when the score exceeds 0.35 the engine returns bc with
method AI Semantic Similarity and confidence hs, where bc is an anchor
category attaining the globally maximal similarity; otherwise the
non-confident semantic result is discarded and the engine falls through to
the system default; and the score exceeds 0.35 exactly when some anchor
category has similarity above 0.35. -/
theorem claim6_semantic (env : Env) (text : String) (bc : String) (hs : ℚ)
    (hguard : ¬(text = "" ∨ (stripChars text.toList).length < 5))
    (hkw : scanKeywords KEYWORD_TO_CATEGORY (text.toList.map Char.toLower) = none)
    (htopic : env.topicLoaded = false ∨ TOPIC_MAPPING.lookup (env.topicOf text) = none)
    (hemb : env.embLoaded = true)
    (hloop : semLoop (env.simOf text) ANCHOR_CATS ("Neutral / Unclassified", 0) = (bc, hs)) :
    (0.35 < hs →
      hybrid_detect env text = (bc, "AI Semantic Similarity", hs) ∧
      bc ∈ ANCHOR_CATS ∧ env.simOf text bc = hs ∧
      ∀ c ∈ ANCHOR_CATS, env.simOf text c ≤ hs) ∧
    (hs ≤ 0.35 → hybrid_detect env text = ("Healthy/Low Risk", "System Default", 0)) ∧
    (0.35 < hs ↔ ∃ c ∈ ANCHOR_CATS, 0.35 < env.simOf text c) := by
  have htl := topicLayer_none env text htopic
  have hse := semanticLayer_eq env text bc hs hemb hloop
  have hub : ∀ c ∈ ANCHOR_CATS, env.simOf text c ≤ hs := by
    intro c hcm
    have h := semLoop_le_of_mem (env.simOf text) ANCHOR_CATS ("Neutral / Unclassified", 0) c hcm
    rw [hloop] at h
    exact h
  have hattain : 0.35 < hs → bc ∈ ANCHOR_CATS ∧ env.simOf text bc = hs := by
    intro hgt
    rcases semLoop_cases (env.simOf text) ANCHOR_CATS ("Neutral / Unclassified", 0) with
      hc | ⟨c, hcm, hc⟩
    · rw [hloop] at hc
      have h0 : hs = 0 := congrArg Prod.snd hc
      rw [h0] at hgt
      exact absurd hgt (by norm_num)
    · rw [hloop] at hc
      have hbc : bc = c := congrArg Prod.fst hc
      have hsc : hs = env.simOf text c := congrArg Prod.snd hc
      rw [hbc, hsc]
      exact ⟨hcm, rfl⟩
  refine ⟨?_, ?_, ?_⟩
  · intro hgt
    have hsome : semanticLayer env text = some (bc, "AI Semantic Similarity", hs) := by
      rw [hse, if_pos hgt]
    exact ⟨hd_semantic env text _ hguard hkw htl hsome, (hattain hgt).1, (hattain hgt).2, hub⟩
  · intro hle
    have hnone : semanticLayer env text = none := by
      rw [hse, if_neg (not_lt.mpr hle)]
    exact hd_default env text hguard hkw htl hnone
  · constructor
    · intro hgt
      exact ⟨bc, (hattain hgt).1, by rw [(hattain hgt).2]; exact hgt⟩
    · rintro ⟨c, hcm, hc⟩
      exact lt_of_lt_of_le hc (hub c hcm)

-- Oracle used by the witness of claim C6: no topic model; embedding model
-- loaded with similarity 0.8 for Physical Abuse and 0.1 for the rest.
def env2 : Env :=
  { topicLoaded := false, topicOf := fun _ => 0, probsOf := fun _ => none,
    embLoaded := true,
    simOf := fun _ c => if c = "Physical Abuse" then 4/5 else 1/10 }

-- Witness for claim C6 at the keyword-free text "abcdef" under env2: the
-- best score 0.8 exceeds 0.35, so the engine returns Physical Abuse by
-- AI Semantic Similarity with confidence 0.8.
unseal Rat.mul Rat.add Rat.sub Rat.inv Rat.ofScientific in
theorem claim6_semantic_witness :
    (¬(("abcdef" : String) = "" ∨ (stripChars ("abcdef" : String).toList).length < 5)) ∧
    (scanKeywords KEYWORD_TO_CATEGORY (("abcdef" : String).toList.map Char.toLower) = none) ∧
    (env2.topicLoaded = false ∨ TOPIC_MAPPING.lookup (env2.topicOf "abcdef") = none) ∧
    (env2.embLoaded = true) ∧
    (semLoop (env2.simOf "abcdef") ANCHOR_CATS ("Neutral / Unclassified", 0)
      = ("Physical Abuse", 4/5)) ∧
    ((0.35 < (4/5 : ℚ) →
      hybrid_detect env2 "abcdef" = ("Physical Abuse", "AI Semantic Similarity", 4/5) ∧
      ("Physical Abuse" : String) ∈ ANCHOR_CATS ∧ env2.simOf "abcdef" "Physical Abuse" = 4/5 ∧
      ∀ c ∈ ANCHOR_CATS, env2.simOf "abcdef" c ≤ 4/5) ∧
    ((4/5 : ℚ) ≤ 0.35 → hybrid_detect env2 "abcdef" = ("Healthy/Low Risk", "System Default", 0)) ∧
    (0.35 < (4/5 : ℚ) ↔ ∃ c ∈ ANCHOR_CATS, 0.35 < env2.simOf "abcdef" c)) :=
  ⟨by decide, by decide, Or.inl rfl, rfl, by decide,
    claim6_semantic env2 "abcdef" "Physical Abuse" (4/5)
      (by decide) (by decide) (Or.inl rfl) rfl (by decide)⟩

/-- Claim C7: for every text passing the length guard, when the keyword
layer finds no match, the topic layer is unavailable or its topic id is
unmapped, and the semantic layer is unavailable or no anchor category has
similarity above 0.35, the engine deterministically returns exactly
(Healthy/Low Risk, System Default, 0); model unavailability is a silent
skip of the layer, never an error. -/
theorem claim7_default (env : Env) (text : String)
    (hguard : ¬(text = "" ∨ (stripChars text.toList).length < 5))
    (hkw : scanKeywords KEYWORD_TO_CATEGORY (text.toList.map Char.toLower) = none)
    (htopic : env.topicLoaded = false ∨ TOPIC_MAPPING.lookup (env.topicOf text) = none)
    (hsem : env.embLoaded = false ∨ ∀ c ∈ ANCHOR_CATS, env.simOf text c ≤ 0.35) :
    hybrid_detect env text = ("Healthy/Low Risk", "System Default", 0) := by
  have htl := topicLayer_none env text htopic
  have hnone : semanticLayer env text = none := by
    rcases hsem with he | hb
    · exact semanticLayer_off env text he
    · cases hemb : env.embLoaded with
      | false => exact semanticLayer_off env text hemb
      | true =>
        rcases hloop : semLoop (env.simOf text) ANCHOR_CATS ("Neutral / Unclassified", 0) with
          ⟨bc, hs⟩
        rw [semanticLayer_eq env text bc hs hemb hloop]
        have hle : hs ≤ 0.35 := by
          rcases semLoop_cases (env.simOf text) ANCHOR_CATS ("Neutral / Unclassified", 0) with
            hc | ⟨c, hcm, hc⟩
          · rw [hloop] at hc
            have h0 : hs = 0 := congrArg Prod.snd hc
            rw [h0]
            norm_num
          · rw [hloop] at hc
            have hsc : hs = env.simOf text c := congrArg Prod.snd hc
            rw [hsc]
            exact hb c hcm
        rw [if_neg (not_lt.mpr hle)]
  exact hd_default env text hguard hkw htl hnone

-- Witness for claim C7 at the keyword-free text "abcdef" with no model
-- loaded: the engine returns the system default.
unseal Rat.mul Rat.add Rat.sub Rat.inv Rat.ofScientific in
theorem claim7_default_witness :
    (¬(("abcdef" : String) = "" ∨ (stripChars ("abcdef" : String).toList).length < 5)) ∧
    (scanKeywords KEYWORD_TO_CATEGORY (("abcdef" : String).toList.map Char.toLower) = none) ∧
    (env0.topicLoaded = false ∨ TOPIC_MAPPING.lookup (env0.topicOf "abcdef") = none) ∧
    (env0.embLoaded = false ∨ ∀ c ∈ ANCHOR_CATS, env0.simOf "abcdef" c ≤ 0.35) ∧
    hybrid_detect env0 "abcdef" = ("Healthy/Low Risk", "System Default", 0) :=
  ⟨by decide, by decide, Or.inl rfl, Or.inl rfl,
    claim7_default env0 "abcdef" (by decide) (by decide) (Or.inl rfl) (Or.inl rfl)⟩

-- Oracle breaking claim C8 as stated: topic model loaded, mapped topic id
-- 2, and a probability scalar of 2, which the code passes through as the
-- confidence without any clamping.
def env3 : Env :=
  { topicLoaded := true, topicOf := fun _ => 2,
    probsOf := fun _ => some (ProbShape.scalar 2),
    embLoaded := false, simOf := fun _ _ => 0 }

-- Counterexample to claim C8 as stated: under env3 the keyword layer
-- abstains on "abcdef", the topic layer maps the id, the method starts
-- with AI Cluster, and the returned confidence is 2, outside [0, 1].
unseal Rat.mul Rat.add Rat.sub Rat.inv Rat.ofScientific in
theorem claim8_counterexample :
    scanKeywords KEYWORD_TO_CATEGORY (("abcdef" : String).toList.map Char.toLower) = none ∧
    TOPIC_MAPPING.lookup (env3.topicOf "abcdef") = some "Control & Manipulation" ∧
    strHasPre "AI Cluster" (hybrid_detect env3 "abcdef").2.1 = true ∧
    (hybrid_detect env3 "abcdef").2.2 = 2 ∧
    ¬((hybrid_detect env3 "abcdef").2.2 ≤ 1) := by
  decide

theorem extractConf_bounds (p : Option ProbShape) (hp : probShapeOK p) :
    0 ≤ extractConf p ∧ extractConf p ≤ 1 := by
  cases p with
  | none =>
    constructor
    · show (0 : ℚ) ≤ 0.5
      norm_num
    · show (0.5 : ℚ) ≤ 1
      norm_num
  | some ps =>
    cases ps with
    | scalar q => exact hp
    | vec hd tl => exact hp (maxList hd tl) (maxList_mem tl hd)

/-- Claim C8 (amended): whenever every probability reported by the topic
model for the text lies in the unit interval and every cosine similarity
reported by the embedding model for the text is at most 1, the confidence
of the classification result lies in [0, 1]; and when the keyword layer
abstains and the topic layer maps the produced topic id, the method is AI
Cluster followed by the id, so it starts with AI Cluster. -/
theorem claim8_conf_bounds (env : Env) (text : String)
    (hprob : probShapeOK (env.probsOf text))
    (hsim : ∀ c ∈ ANCHOR_CATS, env.simOf text c ≤ 1) :
    (0 ≤ (hybrid_detect env text).2.2 ∧ (hybrid_detect env text).2.2 ≤ 1) ∧
    (∀ cat, ¬(text = "" ∨ (stripChars text.toList).length < 5) →
      scanKeywords KEYWORD_TO_CATEGORY (text.toList.map Char.toLower) = none →
      env.topicLoaded = true → TOPIC_MAPPING.lookup (env.topicOf text) = some cat →
      (hybrid_detect env text).2.1 = "AI Cluster " ++ toString (env.topicOf text) ∧
      strHasPre "AI Cluster" (hybrid_detect env text).2.1 = true) := by
  constructor
  · by_cases hg : text = "" ∨ (stripChars text.toList).length < 5
    · rw [hd_guard env text hg]
      constructor
      · exact le_refl 0
      · norm_num
    · cases hsw : scanKeywords KEYWORD_TO_CATEGORY (text.toList.map Char.toLower) with
      | some c =>
        rw [hd_keyword env text c hg hsw]
        constructor
        · norm_num
        · exact le_refl 1
      | none =>
        cases htl : topicLayer env text with
        | some r =>
          rw [hd_topic env text r hg hsw htl]
          rcases topicLayer_some_inv env text r htl with ⟨-, cat, -, hr⟩
          rw [hr]
          exact extractConf_bounds (env.probsOf text) hprob
        | none =>
          cases hsl : semanticLayer env text with
          | some r =>
            rw [hd_semantic env text r hg hsw htl hsl]
            rcases semanticLayer_some_inv env text r hsl with ⟨-, bc, hs, hloop, hgt, hr⟩
            rw [hr]
            constructor
            · show (0 : ℚ) ≤ hs
              have h := semLoop_acc_le (env.simOf text) ANCHOR_CATS ("Neutral / Unclassified", 0)
              rw [hloop] at h
              exact h
            · show hs ≤ 1
              rcases semLoop_cases (env.simOf text) ANCHOR_CATS ("Neutral / Unclassified", 0) with
                hc | ⟨c, hcm, hc⟩
              · rw [hloop] at hc
                have h0 : hs = 0 := congrArg Prod.snd hc
                rw [h0]
                norm_num
              · rw [hloop] at hc
                have hsc : hs = env.simOf text c := congrArg Prod.snd hc
                rw [hsc]
                exact hsim c hcm
          | none =>
            rw [hd_default env text hg hsw htl hsl]
            constructor
            · exact le_refl 0
            · norm_num
  · intro cat hg hsw hload hmap
    have ht := topicLayer_some env text cat hload hmap
    rw [hd_topic env text _ hg hsw ht]
    exact ⟨rfl, strHasPre_cluster (toString (env.topicOf text))⟩

-- Oracle used by the witness of the amended claim C8: topic model loaded
-- with mapped id 2 and a probability scalar 0.75 inside the unit interval.
def env4 : Env :=
  { topicLoaded := true, topicOf := fun _ => 2,
    probsOf := fun _ => some (ProbShape.scalar (3/4)),
    embLoaded := false, simOf := fun _ _ => 0 }

-- Witness for the amended claim C8 at the text "abcdef" under env4.
unseal Rat.mul Rat.add Rat.sub Rat.inv Rat.ofScientific in
theorem claim8_conf_bounds_witness :
    probShapeOK (env4.probsOf "abcdef") ∧
    (∀ c ∈ ANCHOR_CATS, env4.simOf "abcdef" c ≤ 1) ∧
    ((0 ≤ (hybrid_detect env4 "abcdef").2.2 ∧ (hybrid_detect env4 "abcdef").2.2 ≤ 1) ∧
     (∀ cat, ¬(("abcdef" : String) = "" ∨ (stripChars ("abcdef" : String).toList).length < 5) →
       scanKeywords KEYWORD_TO_CATEGORY (("abcdef" : String).toList.map Char.toLower) = none →
       env4.topicLoaded = true → TOPIC_MAPPING.lookup (env4.topicOf "abcdef") = some cat →
       (hybrid_detect env4 "abcdef").2.1 = "AI Cluster " ++ toString (env4.topicOf "abcdef") ∧
       strHasPre "AI Cluster" (hybrid_detect env4 "abcdef").2.1 = true)) :=
  ⟨by constructor <;> norm_num, by decide,
    claim8_conf_bounds env4 "abcdef" (by constructor <;> norm_num) (by decide)⟩

-- Concrete request and expected section outcome used for claim C9: one
-- section "S1" with the neutral text "normal day" and weight 1.
def reqS : List (String × List Item) := [("S1", [⟨"normal day", 1⟩])]

def outS : SectionOutcome :=
  { category := "Healthy/Low Risk", risk := "Low", color := "green", confidence := "0.0%" }

-- Counterexample to claim C9 as stated: with no model loaded, the section
-- confidence renders as "0.0%" but the overall confidence of the response
-- renders as "0.0", with no percent sign.
unseal Rat.mul Rat.add Rat.sub Rat.inv Rat.ofScientific in
theorem claim9_counterexample :
    (analyze env0 reqS).general.confidence = "0.0" ∧
    endsPct (analyze env0 reqS).general.confidence = false ∧
    (analyze env0 reqS).breakdown = [("S1", outS)] := by
  decide

/-- Claim C9 (amended): every per-section confidence of the breakdown is
the percentage rendering, rounded to one decimal place, of the classified
confidence of that section followed by the percent sign, so it ends in the
percent character; the overall confidence of the response is the same
percentage rendering of the overall classified confidence but carries no
percent sign. -/
theorem claim9_confidence_render (env : Env) (grouped : List (String × List Item)) :
    (∀ p ∈ (analyze env grouped).breakdown,
      endsPct p.2.confidence = true ∧
      ∃ items, (p.1, items) ∈ grouped ∧
        p.2.confidence = pctString (hybrid_detect env (sectionText items)).2.2 ++ "%") ∧
    (analyze env grouped).general.confidence
      = pctString (hybrid_detect env (fullTextOf grouped)).2.2 ∧
    endsPct (analyze env grouped).general.confidence = false := by
  refine ⟨?_, ?_, ?_⟩
  · intro p hp
    have hp' : p ∈ breakdownOf env grouped := by
      rw [analyze_eq] at hp
      exact hp
    obtain ⟨items, hmem, hne, hout⟩ := breakdownOf_mem env grouped p hp'
    constructor
    · rw [hout]
      exact endsPct_append _
    · refine ⟨items, hmem, ?_⟩
      rw [hout]
      rfl
  · rw [analyze_eq]
  · rw [analyze_eq]
    exact pctString_ends_false _

-- Witness for the amended claim C9 at the request reqS with no model
-- loaded: the section confidence is "0.0%" and the overall one is "0.0".
unseal Rat.mul Rat.add Rat.sub Rat.inv Rat.ofScientific in
theorem claim9_confidence_render_witness :
    (("S1", outS) ∈ (analyze env0 reqS).breakdown) ∧
    (endsPct ("S1", outS).2.confidence = true ∧
     ∃ items, (("S1", outS).1, items) ∈ reqS ∧
       ("S1", outS).2.confidence = pctString (hybrid_detect env0 (sectionText items)).2.2 ++ "%") ∧
    (analyze env0 reqS).general.confidence
      = pctString (hybrid_detect env0 (fullTextOf reqS)).2.2 ∧
    endsPct (analyze env0 reqS).general.confidence = false :=
  ⟨by decide, (claim9_confidence_render env0 reqS).1 ("S1", outS) (by decide),
   (claim9_confidence_render env0 reqS).2.1, (claim9_confidence_render env0 reqS).2.2⟩
